import Mathlib

/-
Shallow embedding of the Next.js demo backend:
  src/lib/validation.ts            (validateRequired, sanitizeString)
  src/unnamed/part_004             (api-utils: success/error response builders)
  src/app/api/admin/users/route.ts (GET / PATCH / DELETE handlers)
  src/app/api/protected/route.ts   (protected GET, hello GET/POST)
JavaScript strings are modelled as Lean String, JSON scalars as an
inductive JsVal, response bodies as an inductive Json, the Prisma user
table as a list of records, and each route handler as a pure function of
the session, the parsed request pieces and the database.
-/

namespace Demo

/-- JavaScript scalar values as they appear in parsed JSON request bodies;
objects and arrays are not needed by the handlers modelled here. -/
inductive JsVal where
  | vUndefined : JsVal
  | vNull : JsVal
  | vBool : Bool → JsVal
  | vNum : Int → JsVal
  | vStr : String → JsVal
deriving DecidableEq, Repr

/-- JavaScript truthiness for the scalar values above:
undefined, null, false, 0 and the empty string are falsy. -/
def JsVal.truthy : JsVal → Bool
  | .vUndefined => false
  | .vNull => false
  | .vBool b => b
  | .vNum n => decide (n ≠ 0)
  | .vStr s => decide (s ≠ "")

/-- Whitespace characters recognised by JavaScript trim and parseInt
(ASCII subset; the handlers only ever receive these). -/
def isJsWS (c : Char) : Bool :=
  c = ' ' || c = '\t' || c = '\n' || c = '\r' || c = '\x0b' || c = '\x0c'

/-- JavaScript String.prototype.trim on a character list: drop whitespace
from both ends. -/
def jsTrimList (l : List Char) : List Char :=
  ((l.dropWhile isJsWS).reverse.dropWhile isJsWS).reverse

/-- JavaScript String.prototype.trim. -/
def jsTrim (s : String) : String :=
  String.mk (jsTrimList s.data)

/-- Leading decimal digits folded to a number; none when there is no digit,
mirroring parseInt producing NaN. -/
def parseDigits (l : List Char) : Option Nat :=
  let ds := l.takeWhile Char.isDigit
  if ds.isEmpty then none
  else some (ds.foldl (fun acc c => acc * 10 + (c.toNat - 48)) 0)

/-- JavaScript parseInt with radix 10 on the inputs the routes receive:
skip leading whitespace, optional sign, longest digit run; none models NaN. -/
def parseIntJS (s : String) : Option Int :=
  match s.data.dropWhile isJsWS with
  | '-' :: rest => (parseDigits rest).map (fun n => -(n : Int))
  | '+' :: rest => (parseDigits rest).map (fun n => (n : Int))
  | l => (parseDigits l).map (fun n => (n : Int))

/-- The `x || d` defaulting pattern used on searchParams.get results:
a missing parameter is none, and the empty string is falsy so it also
falls back to the default. -/
def orDefault (o : Option String) (d : String) : String :=
  match o with
  | none => d
  | some s => if s = "" then d else s

/-- JSON documents sent back in response bodies. -/
inductive Json where
  | jNull : Json
  | jBool : Bool → Json
  | jNum : Int → Json
  | jStr : String → Json
  | jArr : List Json → Json
  | jObj : List (String × Json) → Json

/-- Top-level field names of a JSON object (empty for non-objects). -/
def Json.keys : Json → List String
  | .jObj fields => fields.map (fun kv => kv.1)
  | _ => []

/-- An HTTP response as built by NextResponse.json: a status code and a
JSON body. -/
structure ApiResponse where
  status : Nat
  body : Json

/-- successResponse from api-utils: status (200 at every call site in the
modelled routes) and body with the success envelope. -/
def successResponse (data : Json) (status : Nat) : ApiResponse :=
  ⟨status, .jObj [("success", .jBool true), ("data", data)]⟩

/-- errorResponse from api-utils. -/
def errorResponse (message : String) (status : Nat) : ApiResponse :=
  ⟨status, .jObj [("success", .jBool false), ("error", .jStr message)]⟩

/-- unauthorizedResponse from api-utils. -/
def unauthorizedResponse : ApiResponse :=
  errorResponse "Unauthorized - Please sign in" 401

/-- forbiddenResponse from api-utils. -/
def forbiddenResponse (message : String) : ApiResponse :=
  errorResponse message 403

/-- The body is a success envelope: exactly the fields success: true and
data, in that order, as successResponse builds them. -/
def isSuccessEnvelope : Json → Bool
  | .jObj [("success", .jBool true), ("data", _)] => true
  | _ => false

/-- The body is an error envelope: exactly the fields success: false and
error with a string message. -/
def isErrorEnvelope : Json → Bool
  | .jObj [("success", .jBool false), ("error", .jStr _)] => true
  | _ => false

/-- The check validateRequired applies to one field value:
falsy, or a string that trims to empty. -/
def isMissingValue (v : JsVal) : Bool :=
  !v.truthy ||
    (match v with
     | .vStr s => decide (jsTrim s = "")
     | _ => false)

/-- The loop of validateRequired: walk the entries in order and collect
the keys whose value fails the check. -/
def collectMissing : List (String × JsVal) → List String
  | [] => []
  | (k, v) :: rest =>
      if isMissingValue v then k :: collectMissing rest else collectMissing rest

/-- validateRequired from validation.ts: none when all fields pass,
some thrown-error message otherwise. -/
def validateRequired (fields : List (String × JsVal)) : Option String :=
  let missing := collectMissing fields
  if missing.length > 0 then
    some ("Missing required fields: " ++ String.intercalate ", " missing)
  else
    none

/-- Remove every angle bracket, the replace of sanitizeString. -/
def removeAngles (l : List Char) : List Char :=
  l.filter (fun c => !(c = '<' || c = '>'))

/-- sanitizeString from validation.ts: trim, then strip the characters
in the class [<>]. -/
def sanitizeString (input : String) : String :=
  String.mk (removeAngles (jsTrimList input.data))

/-- The user part of a NextAuth session as exposed to the handlers. -/
structure SessionUser where
  id : String
  email : String
  name : String
  role : String
deriving DecidableEq, Repr

/-- A resolved session; getServerSession returns some of these or none. -/
structure Session where
  user : SessionUser
deriving DecidableEq, Repr

/-- A row of the Prisma user table, with the hashed password credential
and the derived count of associated session rows. -/
structure DbUser where
  id : String
  name : String
  email : String
  password : String
  role : String
  createdAt : Nat
  updatedAt : Nat
  sessionCount : Nat
deriving DecidableEq, Repr

/-- Substring test on character lists, used for the Prisma contains
filter. -/
def containsSub (needle : List Char) : List Char → Bool
  | [] => needle.isEmpty
  | c :: rest => needle.isPrefixOf (c :: rest) || containsSub needle rest

/-- One user matches the search filter when the search string is a
case-insensitive substring of the name or of the email
(Prisma contains with mode insensitive). -/
def matchesSearch (search : String) (u : DbUser) : Bool :=
  containsSub search.toLower.data u.name.toLower.data ||
    containsSub search.toLower.data u.email.toLower.data

/-- The where clause of the admin listing: all rows when search is empty
(the falsy branch of the conditional), the OR filter otherwise. -/
def filteredUsers (search : String) (db : List DbUser) : List DbUser :=
  if search = "" then db else db.filter (matchesSearch search)

/-- Stable insertion keeping createdAt in descending order. -/
def insertDesc (u : DbUser) : List DbUser → List DbUser
  | [] => [u]
  | v :: rest =>
      if u.createdAt ≤ v.createdAt then v :: insertDesc u rest
      else u :: v :: rest

/-- The orderBy createdAt desc clause of the admin listing. -/
def sortByCreatedAtDesc : List DbUser → List DbUser
  | [] => []
  | u :: rest => insertDesc u (sortByCreatedAtDesc rest)

/-- The field projection of the admin listing select clause: exactly
id, name, email, role, createdAt, updatedAt and the session count. -/
structure SelectedUser where
  id : String
  name : String
  email : String
  role : String
  createdAt : Nat
  updatedAt : Nat
  sessionCount : Nat
deriving DecidableEq, Repr

/-- Apply the select clause to a row. -/
def selectUser (u : DbUser) : SelectedUser :=
  ⟨u.id, u.name, u.email, u.role, u.createdAt, u.updatedAt, u.sessionCount⟩

/-- JSON encoding of a selected row, with the derived count under
the _count key as Prisma returns it. -/
def encodeSelectedUser (u : SelectedUser) : Json :=
  .jObj [("id", .jStr u.id), ("name", .jStr u.name), ("email", .jStr u.email),
    ("role", .jStr u.role), ("createdAt", .jNum u.createdAt),
    ("updatedAt", .jNum u.updatedAt),
    ("_count", .jObj [("sessions", .jNum u.sessionCount)])]

/-- Prisma skip and take applied to the ordered result set: a nonnegative
take keeps the first rows after the skip, a negative take keeps that many
rows from the end. -/
def prismaSlice (l : List DbUser) (skip : Nat) (take : Int) : List DbUser :=
  let afterSkip := l.drop skip
  if 0 ≤ take then afterSkip.take take.toNat
  else afterSkip.drop (afterSkip.length - (-take).toNat)

/-- Math.ceil(total / limit) as the handler computes totalPages;
the JavaScript division is real-number division. For limit = 0 JavaScript
produces a non-finite value, modelled here as the zero of division by
zero; no claim touches that corner. -/
def jsCeilDiv (total : Nat) (limit : Int) : Int :=
  ⌈(total : ℚ) / (limit : ℚ)⌉

/-- Effective page value of the admin listing: the page parameter
defaulted through the falsy-or, then parseInt; no clamping is applied. -/
def effectivePage (pageParam : Option String) : Option Int :=
  parseIntJS (orDefault pageParam "1")

/-- Effective limit value of the admin listing. -/
def effectiveLimit (limitParam : Option String) : Option Int :=
  parseIntJS (orDefault limitParam "10")

/-- The skip offset (page - 1) * limit computed by the admin listing,
none when either parameter parses to NaN. -/
def computedSkip (pageParam limitParam : Option String) : Option Int :=
  match effectivePage pageParam, effectiveLimit limitParam with
  | some page, some limit => some ((page - 1) * limit)
  | _, _ => none

/-- Total for the admin listing: the count of the full filtered set. -/
def totalFor (search : String) (db : List DbUser) : Nat :=
  (filteredUsers search db).length

/-- Items of one page of the admin listing, for a nonnegative skip. -/
def itemsFor (search : String) (db : List DbUser) (skip : Nat) (take : Int) :
    List SelectedUser :=
  (prismaSlice (sortByCreatedAtDesc (filteredUsers search db)) skip take).map
    selectUser

/-- GET /api/admin/users: session gate, role gate, parameter parsing,
filtered count and page slice, success envelope. A negative skip is
rejected by Prisma at query time and surfaces through the catch block as
the 500 response, as does a NaN parameter. -/
def adminUsersGET (session : Option Session)
    (pageParam limitParam searchParam : Option String) (db : List DbUser) :
    ApiResponse :=
  match session with
  | none => unauthorizedResponse
  | some s =>
    if s.user.role ≠ "admin" then forbiddenResponse "Admin access required"
    else
      match parseIntJS (orDefault pageParam "1"),
          parseIntJS (orDefault limitParam "10") with
      | some page, some limit =>
          let search := orDefault searchParam ""
          let skip : Int := (page - 1) * limit
          if skip < 0 then errorResponse "Failed to fetch users" 500
          else
            let users := itemsFor search db skip.toNat limit
            let total := totalFor search db
            successResponse (.jObj [
              ("users", .jArr (users.map encodeSelectedUser)),
              ("pagination", .jObj [("page", .jNum page),
                ("limit", .jNum limit), ("total", .jNum total),
                ("totalPages", .jNum (jsCeilDiv total limit))])]) 200
      | _, _ => errorResponse "Failed to fetch users" 500

/-- Length of the users array inside a listing success body, none when
the body is not a listing success envelope. -/
def responseUsersLength (r : ApiResponse) : Option Nat :=
  match r.body with
  | .jObj [("success", .jBool true), ("data", .jObj [("users", .jArr l), _])] =>
      some l.length
  | _ => none

/-- Failures raised by the Prisma store on update and delete: the P2025
record-not-found code, or any other error carrying internal detail. -/
inductive StoreErr where
  | notFoundP2025 : StoreErr
  | other : String → StoreErr
deriving DecidableEq, Repr

/-- The parsed JSON body of PATCH /api/admin/users after destructuring:
the userId and role properties, absent properties being undefined. -/
structure PatchBody where
  userId : JsVal
  role : JsVal
deriving DecidableEq, Repr

/-- The includes check of the PATCH handler: role must be the exact
string user or the exact string admin. -/
def roleIncluded (v : JsVal) : Bool :=
  v = .vStr "user" || v = .vStr "admin"

/-- Prisma user.update with a where on id: an injected store fault is an
other error, a non-string where value is rejected by Prisma validation,
a missing record raises P2025, and otherwise the matching row's role is
replaced. -/
def prismaUpdateRole (fault : Option String) (db : List DbUser)
    (uid : JsVal) (newRole : String) : Except StoreErr (List DbUser) :=
  match fault with
  | some m => .error (.other m)
  | none =>
    match uid with
    | .vStr i =>
        if db.any (fun u => u.id = i) then
          .ok (db.map (fun u => if u.id = i then { u with role := newRole } else u))
        else
          .error .notFoundP2025
    | _ => .error (.other "invalid where argument")

/-- Prisma user.delete with a where on id. -/
def prismaDelete (fault : Option String) (db : List DbUser) (uid : String) :
    Except StoreErr (List DbUser) :=
  match fault with
  | some m => .error (.other m)
  | none =>
    if db.any (fun u => u.id = uid) then
      .ok (db.filter (fun u => !(u.id = uid)))
    else
      .error .notFoundP2025

/-- The select clause of the PATCH success payload: id, name, email,
role of the updated row. -/
def encodePatchedUser (u : DbUser) : Json :=
  .jObj [("id", .jStr u.id), ("name", .jStr u.name),
    ("email", .jStr u.email), ("role", .jStr u.role)]

/-- PATCH /api/admin/users: session gate, role gate, validateRequired on
userId and role (its thrown error is caught by the generic catch block,
which returns 500 because the error has no P2025 code), the includes
check on role, then the update; P2025 maps to 404 and any other store
failure to the generic 500. The handler returns the response and the
resulting database. -/
def adminUsersPATCH (session : Option Session) (body : PatchBody)
    (fault : Option String) (db : List DbUser) : ApiResponse × List DbUser :=
  match session with
  | none => (unauthorizedResponse, db)
  | some s =>
    if s.user.role ≠ "admin" then (forbiddenResponse "Admin access required", db)
    else
      match validateRequired [("userId", body.userId), ("role", body.role)] with
      | some _ => (errorResponse "Failed to update user" 500, db)
      | none =>
        if !roleIncluded body.role then
          (errorResponse "Invalid role. Must be \"user\" or \"admin\"" 400, db)
        else
          match body.role with
          | .vStr newRole =>
            match prismaUpdateRole fault db body.userId newRole with
            | .ok db' =>
                (successResponse (.jObj [
                  ("message", .jStr "User role updated successfully"),
                  ("user", match db'.find? (fun u =>
                      match body.userId with
                      | .vStr i => u.id = i
                      | _ => false) with
                    | some u => encodePatchedUser u
                    | none => .jNull)]) 200, db')
            | .error .notFoundP2025 => (errorResponse "User not found" 404, db)
            | .error (.other _) => (errorResponse "Failed to update user" 500, db)
          | _ => (errorResponse "Failed to update user" 500, db)

/-- DELETE /api/admin/users: session gate, role gate, id presence check
(null or empty string is falsy), self-deletion check against the
caller's own id, then the delete; P2025 maps to 404 and any other store
failure to the generic 500. -/
def adminUsersDELETE (session : Option Session) (idParam : Option String)
    (fault : Option String) (db : List DbUser) : ApiResponse × List DbUser :=
  match session with
  | none => (unauthorizedResponse, db)
  | some s =>
    if s.user.role ≠ "admin" then (forbiddenResponse "Admin access required", db)
    else
      match idParam with
      | none => (errorResponse "User ID is required" 400, db)
      | some uid =>
        if uid = "" then (errorResponse "User ID is required" 400, db)
        else if uid = s.user.id then
          (errorResponse "Cannot delete your own account" 400, db)
        else
          match prismaDelete fault db uid with
          | .ok db' =>
              (successResponse (.jObj [
                ("message", .jStr "User deleted successfully")]) 200, db')
          | .error .notFoundP2025 => (errorResponse "User not found" 404, db)
          | .error (.other _) => (errorResponse "Failed to delete user" 500, db)

/-- JSON encoding of the session user object. -/
def encodeSessionUser (u : SessionUser) : Json :=
  .jObj [("id", .jStr u.id), ("email", .jStr u.email),
    ("name", .jStr u.name), ("role", .jStr u.role)]

/-- GET /api/protected: raw NextResponse.json bodies, not the
success/error envelope helpers; accessTime is the serialized current
time, passed in as a parameter. -/
def protectedGET (session : Option Session) (accessTime : String) :
    ApiResponse :=
  match session with
  | none => ⟨401, .jObj [("error", .jStr "Unauthorized - Please sign in")]⟩
  | some s =>
      ⟨200, .jObj [("message", .jStr "This is protected data"),
        ("user", encodeSessionUser s.user),
        ("accessTime", .jStr accessTime)]⟩

/-- GET /api/hello: a raw body with message, timestamp and status keys. -/
def helloGET (timestamp : String) : ApiResponse :=
  ⟨200, .jObj [("message", .jStr "Hello from Next.js API!"),
    ("timestamp", .jStr timestamp), ("status", .jStr "success")]⟩

/-- POST /api/hello: echoes the parsed body, none modelling a body that
fails JSON parsing. -/
def helloPOST (body : Option Json) : ApiResponse :=
  match body with
  | none => ⟨400, .jObj [("error", .jStr "Invalid JSON")]⟩
  | some b =>
      ⟨200, .jObj [("message", .jStr "Data received successfully"),
        ("data", b), ("status", .jStr "success")]⟩

/-- Modelled from the spec: the values the spec's validateRequired
sentence calls missing — absent, null, or a string that is empty after
trimming. Used only to compare the spec's wording with the code's
falsiness check. -/
def specMissingValue : JsVal → Bool
  | .vUndefined => true
  | .vNull => true
  | .vStr s => decide (jsTrim s = "")
  | _ => false

/-- A concrete admin session used as a witness input. -/
def adminSession : Session :=
  ⟨⟨"a1", "admin@x.com", "Admin", "admin"⟩⟩

/-- A concrete non-admin session used as a witness input. -/
def userSession : Session :=
  ⟨⟨"u1", "u@x.com", "Uma", "user"⟩⟩

/-- A concrete two-row user table used as a witness input. -/
def sampleDb : List DbUser :=
  [⟨"u1", "Ann", "a@x.com", "pw1", "user", 5, 5, 1⟩,
   ⟨"u2", "Bob", "b@x.com", "pw2", "user", 3, 3, 0⟩]

/-- C1: each of the three /api/admin/users handlers returns 401 when the
session is absent and 403 when the session role is not admin; the
presence check runs first, so an anonymous caller never receives 403. -/
theorem C1_admin_auth_gate_order :
    (∀ pp lp sp db, (adminUsersGET none pp lp sp db).status = 401 ∧
        (adminUsersGET none pp lp sp db).status ≠ 403) ∧
    (∀ body fault db, (adminUsersPATCH none body fault db).1.status = 401 ∧
        (adminUsersPATCH none body fault db).1.status ≠ 403) ∧
    (∀ idp fault db, (adminUsersDELETE none idp fault db).1.status = 401 ∧
        (adminUsersDELETE none idp fault db).1.status ≠ 403) ∧
    (∀ s pp lp sp db, s.user.role ≠ "admin" →
        (adminUsersGET (some s) pp lp sp db).status = 403) ∧
    (∀ s body fault db, s.user.role ≠ "admin" →
        (adminUsersPATCH (some s) body fault db).1.status = 403) ∧
    (∀ s idp fault db, s.user.role ≠ "admin" →
        (adminUsersDELETE (some s) idp fault db).1.status = 403) := by
  refine ⟨?_, ?_, ?_, ?_, ?_, ?_⟩ <;> intros <;>
    simp_all [adminUsersGET, adminUsersPATCH, adminUsersDELETE,
      unauthorizedResponse, forbiddenResponse, errorResponse]

/-- C1 witness: a concrete non-admin session receives 403 from the GET
handler. -/
theorem C1_admin_auth_gate_order_witness :
    userSession.user.role ≠ "admin" ∧
      (adminUsersGET (some userSession) none none none sampleDb).status = 403 :=
  ⟨by decide,
    C1_admin_auth_gate_order.2.2.2.1 userSession none none none sampleDb
      (by decide)⟩

/-- C2 counterexample: a supplied page parameter of 0 is not clamped to 1;
the effective page is 0 and the computed skip offset is -10, a negative
value, contradicting the claim that skip is never negative. -/
theorem C2_counterexample :
    effectivePage (some "0") = some 0 ∧
      computedSkip (some "0") (some "10") = some (-10) ∧ (-10 : Int) < 0 :=
  ⟨by decide, by decide, by decide⟩

/-- C2 amended: the page parameter defaults to 1 when absent or empty,
but no clamping is applied: any parsed value, including values below 1,
is used as-is, the skip offset is (page - 1) * limit, and when that
offset is negative the handler answers 500 because the store rejects the
query. -/
theorem C2_page_default_no_clamp :
    effectivePage none = some 1 ∧
    effectivePage (some "") = some 1 ∧
    (∀ s p, parseIntJS s = some p → s ≠ "" → effectivePage (some s) = some p) ∧
    (∀ pp lp page limit, effectivePage pp = some page →
      effectiveLimit lp = some limit →
      computedSkip pp lp = some ((page - 1) * limit)) ∧
    (∀ s pp lp sp db k, s.user.role = "admin" → computedSkip pp lp = some k →
      k < 0 → (adminUsersGET (some s) pp lp sp db).status = 500) := by
  refine ⟨by decide, by decide, ?_, ?_, ?_⟩
  · intro s p hp hs
    simp [effectivePage, orDefault, hs, hp]
  · intro pp lp page limit hp hl
    simp [computedSkip, hp, hl]
  · intro s pp lp sp db k hrole hk hneg
    rcases hpp : effectivePage pp with _ | page <;>
      rcases hll : effectiveLimit lp with _ | limit <;>
        simp [computedSkip, hpp, hll] at hk
    have hpp' : parseIntJS (orDefault pp "1") = some page := hpp
    have hll' : parseIntJS (orDefault lp "10") = some limit := hll
    subst hk
    simp [adminUsersGET, hrole, hpp', hll', if_pos hneg, errorResponse]

/-- C2 witness: with page parameter 0 and the default limit the admin
GET handler returns the 500 response. -/
theorem C2_page_default_no_clamp_witness :
    adminSession.user.role = "admin" ∧
      computedSkip (some "0") none = some (-10) ∧ (-10 : Int) < 0 ∧
      (adminUsersGET (some adminSession) (some "0") none none sampleDb).status
        = 500 :=
  ⟨by decide, by decide, by decide,
    C2_page_default_no_clamp.2.2.2.2 adminSession (some "0") none none
      sampleDb (-10) (by decide) (by decide) (by decide)⟩

/-- C3 counterexample: GET /api/hello produces a success (status 200)
response whose body is not the success envelope, contradicting the claim
that the hello and protected routes conform to the envelopes. -/
theorem C3_counterexample :
    (helloGET "2024-01-01T00:00:00.000Z").status = 200 ∧
      isSuccessEnvelope (helloGET "2024-01-01T00:00:00.000Z").body = false :=
  ⟨rfl, rfl⟩

/-- C3 amended: responses built through the api-utils helpers conform to
the envelopes — successResponse carries success: true with a data field
and the caller's status, and the error builders carry success: false
with an error message and an explicit status — but GET /api/protected
and GET/POST /api/hello build raw bodies that do not conform to either
envelope. -/
theorem C3_envelope_contract :
    (∀ d st, isSuccessEnvelope (successResponse d st).body = true ∧
        (successResponse d st).status = st) ∧
    (∀ m st, isErrorEnvelope (errorResponse m st).body = true ∧
        (errorResponse m st).status = st) ∧
    (isErrorEnvelope unauthorizedResponse.body = true ∧
      unauthorizedResponse.status = 401) ∧
    (∀ m, isErrorEnvelope (forbiddenResponse m).body = true ∧
        (forbiddenResponse m).status = 403) ∧
    (∀ t, (helloGET t).status = 200 ∧
        isSuccessEnvelope (helloGET t).body = false) ∧
    (∀ b, (helloPOST (some b)).status = 200 ∧
        isSuccessEnvelope (helloPOST (some b)).body = false) ∧
    (isErrorEnvelope (helloPOST none).body = false) ∧
    (∀ s t, (protectedGET (some s) t).status = 200 ∧
        isSuccessEnvelope (protectedGET (some s) t).body = false) ∧
    (∀ t, (protectedGET none t).status = 401 ∧
        isErrorEnvelope (protectedGET none t).body = false) := by
  refine ⟨?_, ?_, ?_, ?_, ?_, ?_, ?_, ?_, ?_⟩ <;> intros <;>
    simp [successResponse, errorResponse, unauthorizedResponse,
      forbiddenResponse, helloGET, helloPOST, protectedGET,
      isSuccessEnvelope, isErrorEnvelope]

/-- C4 counterexample: with an admin session and body role the empty
string — a value that is not user and not admin — the PATCH handler
returns 500, not 400, because validateRequired throws first and the
generic catch block answers; the database is still left unchanged. -/
theorem C4_counterexample :
    roleIncluded (.vStr "") = false ∧
      (adminUsersPATCH (some adminSession) ⟨.vStr "u1", .vStr ""⟩ none
          sampleDb).1.status = 500 ∧
      (adminUsersPATCH (some adminSession) ⟨.vStr "u1", .vStr ""⟩ none
          sampleDb).2 = sampleDb :=
  ⟨by decide, by decide, by decide⟩

/-- C4 amended: for an admin-authenticated PATCH whose role value is not
exactly user or admin, the update is never attempted and the database is
unchanged; the status is 400 with the invalid-role message when both
fields pass the required-fields check, but 500 when the role value is
falsy or whitespace-only, because the validateRequired throw is caught
by the generic catch block. -/
theorem C4_invalid_role_no_update :
    ∀ s body fault db, s.user.role = "admin" →
      roleIncluded body.role = false →
      ((isMissingValue body.userId = false → isMissingValue body.role = false →
        (adminUsersPATCH (some s) body fault db).1 =
          errorResponse "Invalid role. Must be \"user\" or \"admin\"" 400) ∧
       (isMissingValue body.role = true →
        (adminUsersPATCH (some s) body fault db).1 =
          errorResponse "Failed to update user" 500) ∧
       (adminUsersPATCH (some s) body fault db).2 = db) := by
  intro s body fault db hrole hinc
  refine ⟨?_, ?_, ?_⟩
  · intro hu hrm
    simp [adminUsersPATCH, hrole, validateRequired, collectMissing, hu, hrm,
      hinc]
  · intro hrm
    by_cases hu : isMissingValue body.userId = true <;>
      simp [adminUsersPATCH, hrole, validateRequired, collectMissing, hu, hrm]
  · by_cases hu : isMissingValue body.userId = true <;>
      by_cases hrm : isMissingValue body.role = true <;>
        simp [adminUsersPATCH, hrole, validateRequired, collectMissing, hu,
          hrm, hinc]

/-- C4 witness: a concrete truthy role value outside the enumeration
receives the 400 invalid-role response. -/
theorem C4_invalid_role_no_update_witness :
    adminSession.user.role = "admin" ∧
      roleIncluded (.vStr "superadmin") = false ∧
      isMissingValue (.vStr "u1") = false ∧
      isMissingValue (.vStr "superadmin") = false ∧
      (adminUsersPATCH (some adminSession) ⟨.vStr "u1", .vStr "superadmin"⟩
          none sampleDb).1 =
        errorResponse "Invalid role. Must be \"user\" or \"admin\"" 400 :=
  ⟨by decide, by decide, by decide, by decide,
    (C4_invalid_role_no_update adminSession ⟨.vStr "u1", .vStr "superadmin"⟩
        none sampleDb (by decide) (by decide)).1 (by decide) (by decide)⟩

/-- C5: for an admin caller, a DELETE without an id (or with an empty
id) answers 400 with the id-required message, and a DELETE whose id
equals the caller's own id answers 400 with the self-deletion message
while leaving the database untouched; the presence check runs before the
self check. -/
theorem C5_self_delete_forbidden :
    ∀ s fault db, s.user.role = "admin" →
      ((adminUsersDELETE (some s) none fault db).1 =
          errorResponse "User ID is required" 400) ∧
      ((adminUsersDELETE (some s) (some "") fault db).1 =
          errorResponse "User ID is required" 400) ∧
      (s.user.id ≠ "" →
        (adminUsersDELETE (some s) (some s.user.id) fault db).1 =
            errorResponse "Cannot delete your own account" 400 ∧
          (adminUsersDELETE (some s) (some s.user.id) fault db).2 = db) := by
  intro s fault db hrole
  refine ⟨?_, ?_, fun hne => ⟨?_, ?_⟩⟩ <;>
    simp_all [adminUsersDELETE]

/-- C5 witness: the concrete admin session deleting its own id receives
the self-deletion 400 response. -/
theorem C5_self_delete_forbidden_witness :
    adminSession.user.role = "admin" ∧ adminSession.user.id ≠ "" ∧
      (adminUsersDELETE (some adminSession) (some adminSession.user.id) none
          sampleDb).1 =
        errorResponse "Cannot delete your own account" 400 :=
  ⟨by decide, by decide,
    ((C5_self_delete_forbidden adminSession none sampleDb (by decide)).2.2
        (by decide)).1⟩

/-- The collecting loop of validateRequired computes the ordered filter
of the failing entries. -/
lemma collectMissing_eq_filter (fields : List (String × JsVal)) :
    collectMissing fields =
      (fields.filter (fun kv => isMissingValue kv.2)).map (fun kv => kv.1) := by
  induction fields with
  | nil => rfl
  | cons kv rest ih =>
      rcases kv with ⟨k, v⟩
      by_cases h : isMissingValue v = true <;>
        simp [collectMissing, List.filter_cons, h, ih]

/-- C6 counterexample: the numeric value 0 is neither missing, null, nor
a string, yet validateRequired fails on it and lists its field, because
the code tests JavaScript falsiness rather than the three spec cases. -/
theorem C6_counterexample :
    specMissingValue (.vNum 0) = false ∧
      validateRequired [("a", .vNum 0)] = some "Missing required fields: a" :=
  ⟨by decide, by decide⟩

/-- C6 amended: validateRequired fails exactly when some field value is
JavaScript-falsy (absent, null, false, 0, the empty string) or a string
that is empty after trimming; on failure the message enumerates exactly
the failing field names, joined by a comma and space in the mapping's
iteration order; every value the spec calls missing is among them. -/
theorem C6_validateRequired_missing_fields :
    ∀ fields : List (String × JsVal),
      (validateRequired fields = none ↔
        ∀ kv ∈ fields, isMissingValue kv.2 = false) ∧
      (fields.filter (fun kv => isMissingValue kv.2) ≠ [] →
        validateRequired fields = some ("Missing required fields: " ++
          String.intercalate ", "
            ((fields.filter (fun kv => isMissingValue kv.2)).map
              (fun kv => kv.1)))) ∧
      (∀ v, specMissingValue v = true → isMissingValue v = true) := by
  intro fields
  refine ⟨?_, ?_, ?_⟩
  · simp [validateRequired, collectMissing_eq_filter, List.filter_eq_nil_iff]
  · intro hne
    simp only [validateRequired, collectMissing_eq_filter]
    rw [if_pos]
    simp only [List.length_map, List.length_pos]
    exact hne
  · intro v hv
    cases v <;> simp_all [specMissingValue, isMissingValue, JsVal.truthy]

/-- C6 witness: the spec's own example mapping fails listing exactly the
fields a and b in order. -/
theorem C6_validateRequired_missing_fields_witness :
    ([("a", JsVal.vStr ""), ("b", JsVal.vStr " "), ("c", JsVal.vStr "ok")].filter
        (fun kv => isMissingValue kv.2) ≠ []) ∧
      validateRequired
          [("a", JsVal.vStr ""), ("b", JsVal.vStr " "), ("c", JsVal.vStr "ok")] =
        some ("Missing required fields: " ++ String.intercalate ", "
          (([("a", JsVal.vStr ""), ("b", JsVal.vStr " "),
              ("c", JsVal.vStr "ok")].filter
            (fun kv => isMissingValue kv.2)).map (fun kv => kv.1))) :=
  ⟨by decide,
    (C6_validateRequired_missing_fields
        [("a", JsVal.vStr ""), ("b", JsVal.vStr " "), ("c", JsVal.vStr "ok")]).2.1
      (by decide)⟩

/-- Inserting one row grows the sorted list by one. -/
lemma length_insertDesc (u : DbUser) (l : List DbUser) :
    (insertDesc u l).length = l.length + 1 := by
  induction l with
  | nil => rfl
  | cons v rest ih =>
      by_cases h : u.createdAt ≤ v.createdAt <;> simp [insertDesc, h, ih]

/-- Sorting preserves length. -/
lemma length_sortByCreatedAtDesc (l : List DbUser) :
    (sortByCreatedAtDesc l).length = l.length := by
  induction l with
  | nil => rfl
  | cons u rest ih => simp [sortByCreatedAtDesc, length_insertDesc, ih]

/-- One page window has the clipped length. -/
lemma length_drop_take (L : List DbUser) (s t : Nat) :
    ((L.drop s).take t).length = min t (L.length - s) := by
  simp [List.length_take, List.length_drop]

/-- Window lengths sum to the clipped total. -/
lemma sum_min_window (limit len : Nat) :
    ∀ n, ∑ p in Finset.range n, min limit (len - p * limit) =
      min (n * limit) len := by
  intro n
  induction n with
  | zero => simp
  | succ k ih =>
      rw [Finset.sum_range_succ, ih, Nat.succ_mul]
      omega

/-- The rounding-up division is sandwiched between the total and the
total plus one page. -/
lemma ceilDiv_bounds (total limit : Nat) (h : 1 ≤ limit) :
    total ≤ limit * ((total + limit - 1) / limit) ∧
      limit * ((total + limit - 1) / limit) ≤ total + limit - 1 := by
  have hdm := Nat.div_add_mod (total + limit - 1) limit
  have hmlt : (total + limit - 1) % limit < limit := Nat.mod_lt _ h
  constructor <;> omega

/-- For a positive limit, Math.ceil of the real quotient is the
rounding-up natural division. -/
lemma jsCeilDiv_pos (total limit : Nat) (h : 1 ≤ limit) :
    jsCeilDiv total (limit : Int) =
      (((total + limit - 1) / limit : Nat) : Int) := by
  obtain ⟨hlb, hub⟩ := ceilDiv_bounds total limit h
  generalize hN : (total + limit - 1) / limit = N at hlb hub ⊢
  have hq : (0:ℚ) < (limit:ℚ) := by exact_mod_cast h
  have hub' : limit * N ≤ total + (limit - 1) := by omega
  have hcast : ((limit : Int) : ℚ) = (limit : ℚ) := by push_cast; rfl
  have h3 : ((limit - 1 : Nat) : ℚ) = (limit : ℚ) - 1 := by
    push_cast [Nat.cast_sub h]
    ring
  have h2 : ((limit * N : Nat) : ℚ) ≤ ((total + (limit - 1) : Nat) : ℚ) := by
    exact_mod_cast hub'
  have h4 : ((total : Nat) : ℚ) ≤ ((limit * N : Nat) : ℚ) := by
    exact_mod_cast hlb
  push_cast [h3] at h2 h4
  unfold jsCeilDiv
  rw [hcast, Int.ceil_eq_iff]
  refine ⟨?_, ?_⟩ <;> push_cast
  · rw [lt_div_iff₀ hq]
    nlinarith
  · rw [div_le_iff₀ hq]
    nlinarith

/-- Slicing a list into ceil(length / limit) consecutive windows of
width limit exactly exhausts it. -/
lemma sum_page_lengths (L : List DbUser) (limit : Nat) (h : 1 ≤ limit) :
    ∑ p in Finset.range ((L.length + limit - 1) / limit),
        ((L.drop (p * limit)).take limit).length = L.length := by
  have hcong : ∀ p ∈ Finset.range ((L.length + limit - 1) / limit),
      ((L.drop (p * limit)).take limit).length =
        min limit (L.length - p * limit) :=
    fun p _ => length_drop_take L (p * limit) limit
  rw [Finset.sum_congr rfl hcong, sum_min_window]
  have hlb := (ceilDiv_bounds L.length limit h).1
  rw [Nat.mul_comm] at hlb
  exact min_eq_right hlb

/-- The Prisma take of a nonnegative limit is a List.take. -/
lemma prismaSlice_natCast (l : List DbUser) (skip limit : Nat) :
    prismaSlice l skip (limit : Int) = (l.drop skip).take limit := by
  simp [prismaSlice, Int.toNat_natCast]

/-- C7 counterexample: a client-supplied limit of -5 with page 1 gives
skip 0, the store's negative take returns the last 5 rows, and the
handler answers a successful 200 carrying 2 users while the limit is
-5 — so on this successful response the claimed bound
users.length at most limit fails. -/
theorem C7_counterexample :
    (adminUsersGET (some adminSession) (some "1") (some "-5") none
        sampleDb).status = 200 ∧
      responseUsersLength (adminUsersGET (some adminSession) (some "1")
        (some "-5") none sampleDb) = some 2 ∧
      effectiveLimit (some "-5") = some (-5) ∧ ¬((2 : Int) ≤ -5) :=
  ⟨by decide, by decide, by decide, by decide⟩

/-- C7 amended: for every successful admin listing response whose limit
is at least 1, the totalPages value computed by the handler is the
rounding-up division of total by limit, every page's item list has
length at most limit, and the item counts of pages 1 through totalPages
sum exactly to total; for limits below 1 the handler can still answer
200 with more items than the limit value. -/
theorem C7_pagination_invariants :
    ∀ (db : List DbUser) (search : String) (limit : Nat), 1 ≤ limit →
      jsCeilDiv (totalFor search db) (limit : Int) =
        (((totalFor search db + limit - 1) / limit : Nat) : Int) ∧
      (∀ skip : Nat, (itemsFor search db skip (limit : Int)).length ≤ limit) ∧
      ∑ p in Finset.range ((totalFor search db + limit - 1) / limit),
          (itemsFor search db (p * limit) (limit : Int)).length =
        totalFor search db := by
  intro db search limit h
  have hsl : (sortByCreatedAtDesc (filteredUsers search db)).length =
      totalFor search db := by
    rw [length_sortByCreatedAtDesc]
    rfl
  refine ⟨jsCeilDiv_pos _ _ h, ?_, ?_⟩
  · intro skip
    simp [itemsFor, prismaSlice_natCast, List.length_take]
  · have hterm : ∀ p, (itemsFor search db (p * limit) (limit : Int)).length =
        (((sortByCreatedAtDesc (filteredUsers search db)).drop
            (p * limit)).take limit).length := by
      intro p
      simp [itemsFor, prismaSlice_natCast]
    rw [Finset.sum_congr rfl (fun p _ => hterm p), ← hsl]
    exact sum_page_lengths _ limit h

/-- C7 witness: on the concrete table with the default limit, the
handler's totalPages equals the rounding-up division. -/
theorem C7_pagination_invariants_witness :
    (1:Nat) ≤ 10 ∧
      jsCeilDiv (totalFor "" sampleDb) ((10:Nat) : Int) =
        (((totalFor "" sampleDb + 10 - 1) / 10 : Nat) : Int) :=
  ⟨by decide, (C7_pagination_invariants sampleDb "" 10 (by decide)).1⟩

/-- C8: for admin PATCH and DELETE, the store's P2025 record-not-found
signal on a non-existent target id is remapped to 404 with the message
User not found, while every other store failure yields the generic 500
response whose constant message is independent of the internal error
detail; in every failure case the database is unchanged. -/
theorem C8_store_error_mapping :
    ∀ s db, s.user.role = "admin" →
      (∀ uid r, isMissingValue (JsVal.vStr uid) = false →
        roleIncluded (JsVal.vStr r) = true →
        db.any (fun u => u.id = uid) = false →
        (adminUsersPATCH (some s) ⟨.vStr uid, .vStr r⟩ none db).1 =
            errorResponse "User not found" 404 ∧
          (adminUsersPATCH (some s) ⟨.vStr uid, .vStr r⟩ none db).2 = db) ∧
      (∀ uid r m, isMissingValue (JsVal.vStr uid) = false →
        roleIncluded (JsVal.vStr r) = true →
        (adminUsersPATCH (some s) ⟨.vStr uid, .vStr r⟩ (some m) db).1 =
            errorResponse "Failed to update user" 500 ∧
          (adminUsersPATCH (some s) ⟨.vStr uid, .vStr r⟩ (some m) db).2 = db) ∧
      (∀ uid, uid ≠ "" → uid ≠ s.user.id →
        db.any (fun u => u.id = uid) = false →
        (adminUsersDELETE (some s) (some uid) none db).1 =
            errorResponse "User not found" 404 ∧
          (adminUsersDELETE (some s) (some uid) none db).2 = db) ∧
      (∀ uid m, uid ≠ "" → uid ≠ s.user.id →
        (adminUsersDELETE (some s) (some uid) (some m) db).1 =
            errorResponse "Failed to delete user" 500 ∧
          (adminUsersDELETE (some s) (some uid) (some m) db).2 = db) := by
  intro s db hrole
  have hvu : isMissingValue (JsVal.vStr "user") = false := by decide
  have hva : isMissingValue (JsVal.vStr "admin") = false := by decide
  refine ⟨?_, ?_, ?_, ?_⟩
  · intro uid r hu hr hany
    have hr' : r = "user" ∨ r = "admin" := by
      simpa [roleIncluded] using hr
    rcases hr' with hr' | hr' <;> subst hr' <;>
      simp [adminUsersPATCH, hrole, validateRequired, collectMissing, hu,
        hvu, hva, roleIncluded, prismaUpdateRole, hany]
  · intro uid r m hu hr
    have hr' : r = "user" ∨ r = "admin" := by
      simpa [roleIncluded] using hr
    rcases hr' with hr' | hr' <;> subst hr' <;>
      simp [adminUsersPATCH, hrole, validateRequired, collectMissing, hu,
        hvu, hva, roleIncluded, prismaUpdateRole]
  · intro uid hne hown hany
    simp [adminUsersDELETE, hrole, hne, hown, prismaDelete, hany]
  · intro uid m hne hown
    simp [adminUsersDELETE, hrole, hne, hown, prismaDelete]

/-- C8 witness: deleting a concrete non-existent id as admin yields the
404 User not found response. -/
theorem C8_store_error_mapping_witness :
    adminSession.user.role = "admin" ∧ ("zz" : String) ≠ "" ∧
      ("zz" : String) ≠ adminSession.user.id ∧
      sampleDb.any (fun u => u.id = "zz") = false ∧
      (adminUsersDELETE (some adminSession) (some "zz") none sampleDb).1 =
        errorResponse "User not found" 404 :=
  ⟨by decide, by decide, by decide, by decide,
    ((C8_store_error_mapping adminSession sampleDb (by decide)).2.2.1 "zz"
        (by decide) (by decide) (by decide)).1⟩

/-- Changing only the password leaves the search match unchanged. -/
lemma matchesSearch_pw (s : String) (f : DbUser → String) (u : DbUser) :
    matchesSearch s { u with password := f u } = matchesSearch s u := rfl

/-- Changing only passwords commutes with the search filter. -/
lemma filteredUsers_pw (s : String) (f : DbUser → String) (db : List DbUser) :
    filteredUsers s (db.map (fun u => { u with password := f u })) =
      (filteredUsers s db).map (fun u => { u with password := f u }) := by
  by_cases h : s = ""
  · simp [filteredUsers, h]
  · simp only [filteredUsers, h, if_neg, ite_false]
    induction db with
    | nil => rfl
    | cons u rest ih =>
        simp only [List.map_cons, List.filter_cons, matchesSearch_pw]
        by_cases hm : matchesSearch s u <;> simp [hm, ih]

/-- Changing only passwords commutes with the sorted insertion. -/
lemma insertDesc_pw (f : DbUser → String) (u : DbUser) (l : List DbUser) :
    insertDesc { u with password := f u }
        (l.map (fun v => { v with password := f v })) =
      (insertDesc u l).map (fun v => { v with password := f v }) := by
  induction l with
  | nil => rfl
  | cons v rest ih =>
      simp only [List.map_cons, insertDesc]
      by_cases h : u.createdAt ≤ v.createdAt <;> simp [h, ih]

/-- Changing only passwords commutes with the sort. -/
lemma sort_pw (f : DbUser → String) (l : List DbUser) :
    sortByCreatedAtDesc (l.map (fun v => { v with password := f v })) =
      (sortByCreatedAtDesc l).map (fun v => { v with password := f v }) := by
  induction l with
  | nil => rfl
  | cons u rest ih => simp [sortByCreatedAtDesc, ih, insertDesc_pw]

/-- Changing only passwords commutes with the skip/take slice. -/
lemma prismaSlice_pw (f : DbUser → String) (l : List DbUser) (skip : Nat)
    (take : Int) :
    prismaSlice (l.map (fun v => { v with password := f v })) skip take =
      (prismaSlice l skip take).map (fun v => { v with password := f v }) := by
  unfold prismaSlice
  by_cases h : 0 ≤ take <;>
    simp [h, ← List.map_drop, ← List.map_take, List.length_map]

/-- The page items do not depend on the password column. -/
lemma itemsFor_pw (f : DbUser → String) (s : String) (db : List DbUser)
    (skip : Nat) (take : Int) :
    itemsFor s (db.map (fun u => { u with password := f u })) skip take =
      itemsFor s db skip take := by
  unfold itemsFor
  rw [filteredUsers_pw, sort_pw, prismaSlice_pw, List.map_map]
  rfl

/-- The total does not depend on the password column. -/
lemma totalFor_pw (f : DbUser → String) (s : String) (db : List DbUser) :
    totalFor s (db.map (fun u => { u with password := f u })) =
      totalFor s db := by
  unfold totalFor
  rw [filteredUsers_pw, List.length_map]

/-- C9: the admin listing selects exactly id, name, email, role,
createdAt, updatedAt and the derived session count; the projection
ignores the password column, the whole GET response is unchanged under
any rewrite of every stored password, and the encoded record carries
exactly the selected keys — so the hashed secret never reaches a
response. -/
theorem C9_password_never_selected :
    (∀ u pw, selectUser { u with password := pw } = selectUser u) ∧
    (∀ (f : DbUser → String) sess pp lp sp db,
      adminUsersGET sess pp lp sp (db.map (fun u => { u with password := f u })) =
        adminUsersGET sess pp lp sp db) ∧
    (∀ u, Json.keys (encodeSelectedUser u) =
      ["id", "name", "email", "role", "createdAt", "updatedAt", "_count"]) := by
  refine ⟨fun u pw => rfl, ?_, fun u => rfl⟩
  intro f sess pp lp sp db
  cases sess with
  | none => rfl
  | some s =>
      by_cases hrole : s.user.role = "admin"
      · rcases hp : parseIntJS (orDefault pp "1") with _ | page <;>
          rcases hl : parseIntJS (orDefault lp "10") with _ | limit <;>
            simp [adminUsersGET, hrole, hp, hl, itemsFor_pw, totalFor_pw]
      · simp [adminUsersGET, hrole]

/-- C10: sanitizeString trims and then removes every angle bracket, so
its output never contains one; because the brackets are removed after
trimming, whitespace uncovered by a removed bracket survives, and the
function is not idempotent. -/
theorem C10_sanitize_no_angle_brackets :
    (∀ s c, c ∈ (sanitizeString s).data → c ≠ '<' ∧ c ≠ '>') ∧
    sanitizeString "  <b>hi</b>  " = "bhi/b" ∧
    sanitizeString (sanitizeString "< a >") ≠ sanitizeString "< a >" := by
  refine ⟨?_, by decide, by decide⟩
  intro s c hc
  have hmem : c ∈ removeAngles (jsTrimList s.data) := hc
  simp only [removeAngles, List.mem_filter] at hmem
  have := hmem.2
  constructor <;> intro hch <;> subst hch <;> simp at this

/-- C10 witness: a concrete surviving character of a sanitized string is
not an angle bracket. -/
theorem C10_sanitize_no_angle_brackets_witness :
    'x' ∈ (sanitizeString "<x>").data ∧ 'x' ≠ '<' ∧ 'x' ≠ '>' :=
  ⟨by decide, C10_sanitize_no_angle_brackets.1 "<x>" 'x' (by decide)⟩

end Demo
